import Mathlib

/-!
Verification of the task lifecycle and billing reconciliation engine of the
new-api gateway (video task flows).

The definitions below are a shallow embedding of the Go sources:

* src/controller/task_video.go  — the periodic sweep reconciler
  (updateVideoSingleTask) and its billing branches;
* src/relay/relay_task.go       — the submission pipeline (RelayTaskSubmit),
  the on-demand fetch/poll path (videoFetchByIDRespBodyBuilder) and the
  model mapping resolver (applyTaskModelMapping);
* src/relay/channel/task/xai/adaptor.go and the volcvideo adaptor — the
  provider result normalisation (ParseTaskResult).

Modelling conventions:

* Go float64 values (durations, prices, ratios) are embedded as exact
  rationals; Go int is embedded as Int; Go status strings stay String.
* The persisted storage and the quota ledger are an explicit World record
  (per-user balances as functions, audit logs as lists).  Storage writes
  are modelled as always succeeding.
* HTTP transport, JSON (de)serialisation of raw payloads, logging text and
  the timeout sweep branch carry no billing decisions used by the claims
  and are not modelled; a function that in Go fetches and parses a provider
  response instead receives the parsed TaskInfo as an argument.
* Functions return their World explicitly; an error return hands back the
  World unchanged exactly when the Go code returns before any mutation.
-/

namespace NewApi

attribute [local semireducible] Rat.mul Rat.inv Rat.add Rat.sub

/-- Computable floor of a rational: numerator divided by denominator with
Lean's Int division (floor division, denominators are positive). -/
def ratFloor (x : ℚ) : Int := x.num / (x.den : Int)

/-- Go's int(x) conversion of a float64: truncation toward zero, embedded on ℚ. -/
def goInt (x : ℚ) : Int := if 0 ≤ x then ratFloor x else -(ratFloor (-x))

/-- Status strings of model.TaskStatus. -/
def TaskStatusUnknown : String := "UNKNOWN"

def TaskStatusSubmitted : String := "SUBMITTED"

def TaskStatusQueued : String := "QUEUED"

def TaskStatusInProgress : String := "IN_PROGRESS"

def TaskStatusSuccess : String := "SUCCESS"

def TaskStatusFailure : String := "FAILURE"

/-- Action strings of constant.TaskAction*. -/
def TaskActionGenerate : String := "generate"

def TaskActionEdit : String := "editGenerate"

def TaskActionRemix : String := "remix"

/-- Task.PrivateData: token identity recorded for refund routing. -/
structure PrivateData where
  tokenId : Int
  tokenKey : String
  tokenName : String
deriving Repr, DecidableEq

/-- The persisted task row (model.Task), restricted to the fields the
reconciliation and billing logic reads or writes. -/
structure Task where
  taskID : String
  userId : Nat
  channelId : Nat
  action : String
  status : String
  progress : String
  submitTime : Int
  startTime : Int
  finishTime : Int
  quota : Int
  group : String
  failReason : String
  originModelName : String
  upstreamModelName : Option String
  privateData : PrivateData
deriving Repr, DecidableEq

/-- The normalized poll result (relaycommon.TaskInfo). -/
structure TaskInfo where
  taskID : String
  status : String
  url : String
  progress : String
  reason : String
  completionTokens : Int
  totalTokens : Int
  duration : ℚ
deriving Repr, DecidableEq

/-- The all-empty TaskInfo value. -/
def emptyTaskInfo : TaskInfo :=
  { taskID := "", status := "", url := "", progress := "", reason := ""
    completionTokens := 0, totalTokens := 0, duration := 0 }

/-- One audit record produced by model.RecordConsumeLog, restricted to the
fields the claims inspect (signed quota delta and the moderation flag of
the structured other map). -/
structure ConsumeLog where
  userId : Nat
  channelId : Nat
  modelName : String
  tokenName : String
  quota : Int
  moderation : Bool
deriving Repr, DecidableEq

/-- The ledger and log state shared by all flows. -/
structure World where
  userQuota : Nat → Int
  tokenQuota : Int → Int
  userUsedQuota : Nat → Int
  channelUsedQuota : Nat → Int
  consumeLogs : List ConsumeLog
  sysLogs : List String

/-- model.IncreaseUserQuota. -/
def World.increaseUserQuota (w : World) (uid : Nat) (q : Int) : World :=
  { w with userQuota := fun u => if u = uid then w.userQuota u + q else w.userQuota u }

/-- model.DecreaseUserQuota. -/
def World.decreaseUserQuota (w : World) (uid : Nat) (q : Int) : World :=
  { w with userQuota := fun u => if u = uid then w.userQuota u - q else w.userQuota u }

/-- model.IncreaseTokenQuota. -/
def World.increaseTokenQuota (w : World) (tid : Int) (q : Int) : World :=
  { w with tokenQuota := fun t => if t = tid then w.tokenQuota t + q else w.tokenQuota t }

/-- model.DecreaseTokenQuota. -/
def World.decreaseTokenQuota (w : World) (tid : Int) (q : Int) : World :=
  { w with tokenQuota := fun t => if t = tid then w.tokenQuota t - q else w.tokenQuota t }

/-- model.UpdateUserUsedQuotaAndRequestCount. -/
def World.updateUserUsedQuota (w : World) (uid : Nat) (q : Int) : World :=
  { w with userUsedQuota := fun u => if u = uid then w.userUsedQuota u + q else w.userUsedQuota u }

/-- model.UpdateChannelUsedQuota. -/
def World.updateChannelUsedQuota (w : World) (cid : Nat) (q : Int) : World :=
  { w with channelUsedQuota := fun c => if c = cid then w.channelUsedQuota c + q else w.channelUsedQuota c }

/-- model.RecordConsumeLog. -/
def World.recordConsumeLog (w : World) (e : ConsumeLog) : World :=
  { w with consumeLogs := w.consumeLogs ++ [e] }

/-- model.RecordLog with LogTypeSystem. -/
def World.recordSysLog (w : World) (s : String) : World :=
  { w with sysLogs := w.sysLogs ++ [s] }

/-- List-of-characters prefix test (Go strings.HasPrefix on rune lists). -/
def charListHasPre : List Char → List Char → Bool
  | [], _ => true
  | _ :: _, [] => false
  | p :: ps, c :: cs => (p = c) && charListHasPre ps cs

/-- List-of-characters substring test (Go strings.Contains on rune lists). -/
def charListHasSub (pat : List Char) : List Char → Bool
  | [] => charListHasPre pat []
  | c :: cs => charListHasPre pat (c :: cs) || charListHasSub pat cs

/-- Go strings.ToLower. -/
def strToLower (s : String) : String := String.mk (s.data.map Char.toLower)

/-- Go strings.HasPrefix. -/
def strHasPre (s pre : String) : Bool := charListHasPre pre.data s.data

/-- Go s[:n] (the reconciler only slices after checking len(s) > n). -/
def strTake (s : String) (n : Nat) : String := String.mk (s.data.take n)

/-- The moderation policy test of task_video.go:361 —
strings.Contains(strings.ToLower(reason), "content moderation"). -/
def isModerationReason (r : String) : Bool :=
  charListHasSub (("content moderation").data) ((strToLower r).data)

/-- Modelled from the spec: relaycommon.FailTaskInfo is repository code that is
not under src/ (task_video.go:154 is its only appearance there).  The spec's
section 4.4 and section 7 require a poll result with a missing or empty status
field to be "mapped to the Unknown transient state" that "does not trigger
billing effects and does not persist as terminal", so the replacement
TaskInfo built for an empty upstream status carries the Unknown status. -/
def failTaskInfo (reason : String) : TaskInfo :=
  { emptyTaskInfo with status := TaskStatusUnknown, reason := reason }

/-- The empty-status normalisation at task_video.go:152-155: an empty status
is replaced by the sentinel TaskInfo before the status switch runs. -/
def normalizeTaskResult (tr : TaskInfo) : TaskInfo :=
  if tr.status = "" then failTaskInfo ("upstream returned empty status") else tr

/-- Configuration lookups of setting/ratio_setting and the user table, passed
as read-only state (the Go code reads global tables). -/
structure RatioConfig where
  modelRatio : String → ℚ × Bool
  modelPrice : String → Option ℚ
  defaultModelPrice : String → Option ℚ
  groupRatio : String → ℚ
  groupGroupRatio : String → String → Option ℚ
  userGroup : Nat → String
  taskPricePatches : List String
  quotaPerUnit : ℚ
  resolveModelName : Task → TaskInfo → String

/-- The xAI video-edit duration cap (the maxDuration constant, 8.7 seconds,
task_video.go:299 and relay_task.go:490). -/
def maxDuration : ℚ := 87 / 10

/-- The clamped, prorated, floored-at-one settled quota of a video edit
(the actualQuota computation at task_video.go:299-310 and
relay_task.go:490-501, identical at both sites). -/
def xaiEditActualQuota (quota : Int) (d : ℚ) : Int :=
  let actualDuration := if d > maxDuration then maxDuration else d
  if actualDuration < maxDuration then
    let q := goInt ((quota : ℚ) * actualDuration / maxDuration)
    if q ≤ 0 then 1 else q
  else quota

/-- The deferred duration settlement of a successful video edit.  This block
appears verbatim twice in the source: task_video.go:295-348 (sweep) and
relay_task.go:486-537 (on-demand fetch); both sites call this one embedding.
Settles the quota, credits the difference back to the user and the routing
token, rewrites the task quota and writes one consumption log entry. -/
def editSuccessSettlement (task : Task) (d : ℚ) (w : World) : Task × World :=
  let actualQuota := xaiEditActualQuota task.quota d
  let refundQuota := task.quota - actualQuota
  let w :=
    if refundQuota > 0 then
      let w := w.increaseUserQuota task.userId refundQuota
      if task.privateData.tokenId > 0 ∧ task.privateData.tokenKey ≠ "" then
        w.increaseTokenQuota task.privateData.tokenId refundQuota
      else w
    else w
  let task := { task with quota := actualQuota }
  let w := w.recordConsumeLog
    { userId := task.userId, channelId := task.channelId
      modelName := task.originModelName, tokenName := task.privateData.tokenName
      quota := actualQuota, moderation := false }
  let w := w.updateUserUsedQuota task.userId actualQuota
  let w := w.updateChannelUsedQuota task.channelId actualQuota
  (task, w)

/-- The moderation charge of a failed video edit (task_video.go:364-408):
bill 8 of 8.7 seconds, refund the difference, log the moderation charge. -/
def editModerationSettlement (task : Task) (w : World) : Task × World :=
  let moderationDuration : ℚ := 8
  let moderationQuota0 := goInt ((task.quota : ℚ) * moderationDuration / maxDuration)
  let moderationQuota := if moderationQuota0 ≤ 0 then 1 else moderationQuota0
  let refundDiff := task.quota - moderationQuota
  let w :=
    if refundDiff > 0 then
      let w := w.increaseUserQuota task.userId refundDiff
      if task.privateData.tokenId > 0 ∧ task.privateData.tokenKey ≠ "" then
        w.increaseTokenQuota task.privateData.tokenId refundDiff
      else w
    else w
  let task := { task with quota := moderationQuota }
  let w := w.recordConsumeLog
    { userId := task.userId, channelId := task.channelId
      modelName := task.originModelName, tokenName := task.privateData.tokenName
      quota := moderationQuota, moderation := true }
  let w := w.updateUserUsedQuota task.userId moderationQuota
  let w := w.updateChannelUsedQuota task.channelId moderationQuota
  (task, w)

/-- The token-count rebilling of a successful task (task_video.go:184-294):
when the poll reports total tokens and the model has a configured ratio,
recompute the real charge and settle the difference.  The JSON extraction of
the model name (task_video.go:186-212) is abstracted as the
cfg.resolveModelName lookup; no claim exercises it. -/
def tokenRebilling (cfg : RatioConfig) (task : Task) (tr : TaskInfo) (w : World) :
    Task × World :=
  let modelName := cfg.resolveModelName task tr
  let p := cfg.modelRatio modelName
  if p.2 ∧ p.1 > 0 then
    let group := if task.group ≠ "" then task.group else cfg.userGroup task.userId
    if group ≠ "" then
      let finalGroupRatio :=
        match cfg.groupGroupRatio group group with
        | some r => r
        | none => cfg.groupRatio group
      let actualQuota := goInt ((tr.totalTokens : ℚ) * p.1 * finalGroupRatio)
      let preConsumedQuota := task.quota
      let quotaDelta := actualQuota - preConsumedQuota
      if quotaDelta > 0 then
        let w := w.decreaseUserQuota task.userId quotaDelta
        let w := w.updateUserUsedQuota task.userId quotaDelta
        let w := w.updateChannelUsedQuota task.channelId quotaDelta
        let w := w.recordSysLog ("video task token surcharge")
        ({ task with quota := actualQuota }, w)
      else if quotaDelta < 0 then
        let w := w.increaseUserQuota task.userId (-quotaDelta)
        let w := w.recordSysLog ("video task token refund")
        ({ task with quota := actualQuota }, w)
      else (task, w)
    else (task, w)
  else (task, w)

/-- The SUCCESS case of the sweep reconciler status switch
(task_video.go:173-348). -/
def successCase (now : Int) (cfg : RatioConfig) (preStatus : String)
    (task0 : Task) (tr : TaskInfo) (w : World) : Task × World :=
  let task := { task0 with
    progress := "100%"
    finishTime := if task0.finishTime = 0 then now else task0.finishTime }
  let task := { task with
    failReason :=
      if ¬(tr.url.length > 5 ∧ strTake tr.url 5 = "data:") then tr.url
      else task.failReason }
  let tw := if tr.totalTokens > 0 then tokenRebilling cfg task tr w else (task, w)
  let task := tw.1
  let w := tw.2
  if preStatus ≠ TaskStatusSuccess ∧ task.action = TaskActionEdit ∧
      tr.duration > 0 ∧ task.quota > 0 then
    editSuccessSettlement task tr.duration w
  else (task, w)

/-- The FAILURE case of the sweep reconciler status switch
(task_video.go:350-437).  Returns the updated task, the world, and the
shouldRefund flag consumed after the persisting update. -/
def failureCase (now : Int) (quota : Int) (preStatus : String)
    (task0 : Task) (tr : TaskInfo) (w : World) : Task × World × Bool :=
  let task := { task0 with
    status := TaskStatusFailure
    progress := "100%"
    finishTime := if task0.finishTime = 0 then now else task0.finishTime
    failReason := tr.reason }
  let isModeration := isModerationReason tr.reason
  if isModeration = true ∧ quota ≠ 0 ∧ preStatus ≠ TaskStatusFailure then
    if task.action = TaskActionEdit then
      let tw := editModerationSettlement task w
      (tw.1, tw.2, false)
    else
      let w := w.recordConsumeLog
        { userId := task.userId, channelId := task.channelId
          modelName := task.originModelName, tokenName := task.privateData.tokenName
          quota := 0, moderation := true }
      (task, w, false)
  else if isModeration = false ∧ quota ≠ 0 then
    if preStatus ≠ TaskStatusFailure then ({ task with quota := 0 }, w, true)
    else (task, w, false)
  else (task, w, false)

/-- The tail of the sweep reconciler (task_video.go:441-458): overwrite the
progress with a non-empty poll progress, persist the row (always succeeds in
this model) and, when the refund flag survived the update, credit the
recorded pre-charge back to the user and the routing token. -/
def finishUpdate (task : Task) (trProgress : String) (w : World)
    (shouldRefund : Bool) (quota : Int) : Except String Task × World :=
  let task := { task with
    progress := if trProgress ≠ "" then trProgress else task.progress }
  if shouldRefund then
    let w := w.increaseUserQuota task.userId quota
    let w :=
      if task.privateData.tokenId > 0 ∧ task.privateData.tokenKey ≠ "" then
        w.increaseTokenQuota task.privateData.tokenId quota
      else w
    let w := w.recordSysLog ("Video async task failed " ++ task.taskID ++ ", refund")
    (Except.ok task, w)
  else (Except.ok task, w)

/-- The poll-processing core of the sweep reconciler
(controller/task_video.go updateVideoSingleTask, lines 151-460).  The
snapshot snap is the task row as read before the poll; tr0 is the parsed
provider poll result.  The HTTP fetch, the parse-error early returns and the
timeout branch (which precede this logic and perform no billing on the paths
the claims quantify over) are outside this function; an error return models
the Go early return with no persisted write and no ledger mutation. -/
def updateVideoSingleTask (now : Int) (cfg : RatioConfig) (snap : Task)
    (tr0 : TaskInfo) (w : World) : Except String Task × World :=
  let tr := normalizeTaskResult tr0
  let quota := snap.quota
  let preStatus := snap.status
  let task := { snap with status := tr.status }
  if tr.status = TaskStatusSubmitted then
    finishUpdate { task with progress := "10%" } tr.progress w false quota
  else if tr.status = TaskStatusQueued then
    finishUpdate { task with progress := "20%" } tr.progress w false quota
  else if tr.status = TaskStatusInProgress then
    finishUpdate
      { task with
        progress := "30%"
        startTime := if task.startTime = 0 then now else task.startTime }
      tr.progress w false quota
  else if tr.status = TaskStatusSuccess then
    let tw := successCase now cfg preStatus task tr w
    finishUpdate tw.1 tr.progress tw.2 false quota
  else if tr.status = TaskStatusFailure then
    let twr := failureCase now quota preStatus task tr w
    finishUpdate twr.1 ("100%") twr.2.1 twr.2.2 quota
  else
    (Except.error ("unknown task status " ++ tr.status ++ " for task " ++ snap.taskID), w)

/-- The on-demand fetch/poll path of relay_task.go
(videoFetchByIDRespBodyBuilder, lines 464-553): the inner closure that
re-polls the provider for a fetched task, applies the xAI video-edit billing
on a success or failure transition, and persists the row.  snap is the task
row read from storage, ti the parsed provider result. -/
def videoFetchPoll (snap : Task) (ti : TaskInfo) (w : World) : Task × World :=
  let prevStatus := snap.status
  let t := { snap with status := if ti.status ≠ "" then ti.status else snap.status }
  let t := { t with progress := if ti.progress ≠ "" then ti.progress else t.progress }
  let t := { t with
    failReason :=
      if ti.url ≠ "" ∧ ¬(strHasPre ti.url ("data:") = true) then ti.url
      else t.failReason }
  let t := { t with failReason := if ti.reason ≠ "" then ti.reason else t.failReason }
  let statusChanged := prevStatus ≠ t.status
  let tw :=
    if statusChanged ∧ t.status = TaskStatusSuccess ∧ t.action = TaskActionEdit ∧
        ti.duration > 0 ∧ t.quota > 0 then
      editSuccessSettlement t ti.duration w
    else (t, w)
  let t := tw.1
  let w := tw.2
  let tw :=
    if statusChanged ∧ t.status = TaskStatusFailure ∧ t.action = TaskActionEdit ∧
        t.quota > 0 then
      let refundQuota := t.quota
      let w := w.increaseUserQuota t.userId refundQuota
      let w :=
        if t.privateData.tokenId > 0 ∧ t.privateData.tokenKey ≠ "" then
          w.increaseTokenQuota t.privateData.tokenId refundQuota
        else w
      ({ t with quota := 0 }, w)
    else (t, w)
  tw

/-- The decoded shape of a volcvideo fetch response
(relay/channel/task/volcvideo fetchResponse); JSON decoding itself is not
modelled, absent fields decode to their zero values as in Go. -/
structure VolcFetchResponse where
  id : String
  modelName : String
  status : String
  videoUrl : String
  completionTokens : Int
  totalTokens : Int
  errorCode : String
  errorMessage : String
deriving Repr, DecidableEq

/-- The volcvideo adaptor's ParseTaskResult (volcvideo adaptor, lines
691-769): normalises a decoded fetch response into a TaskInfo.  The JSON
re-marshalling of the success payload into the Reason field feeds only the
abstracted model-name extraction and is left as the empty string. -/
def volcParseTaskResult (fr : VolcFetchResponse) : TaskInfo :=
  if fr.errorCode ≠ "" then
    { emptyTaskInfo with
      taskID := fr.id, status := TaskStatusFailure, progress := "100%"
      reason := fr.errorCode ++ ": " ++ fr.errorMessage }
  else if fr.status = "" then
    { emptyTaskInfo with
      taskID := fr.id, status := TaskStatusUnknown, progress := "0%"
      reason := "unrecognised response shape" }
  else if strToLower fr.status = "queued" then
    { emptyTaskInfo with taskID := fr.id, status := TaskStatusQueued, progress := "20%" }
  else if strToLower fr.status = "running" then
    { emptyTaskInfo with taskID := fr.id, status := TaskStatusInProgress, progress := "60%" }
  else if strToLower fr.status = "succeeded" then
    { emptyTaskInfo with
      taskID := fr.id, status := TaskStatusSuccess, progress := "100%"
      url := fr.videoUrl
      completionTokens := if fr.totalTokens > 0 then fr.completionTokens else 0
      totalTokens := if fr.totalTokens > 0 then fr.totalTokens else 0 }
  else if strToLower fr.status = "failed" then
    { emptyTaskInfo with
      taskID := fr.id, status := TaskStatusFailure, progress := "100%"
      reason := if fr.errorMessage ≠ "" then fr.errorMessage else "task execution failed" }
  else if strToLower fr.status = "expired" then
    { emptyTaskInfo with
      taskID := fr.id, status := TaskStatusFailure, progress := "100%"
      reason := "task timed out" }
  else
    { emptyTaskInfo with
      taskID := fr.id, status := TaskStatusUnknown, progress := "0%"
      reason := "unrecognised status: " ++ fr.status }

/-- Go map lookup on the channel model-mapping table, embedded as an
association list with unique keys (first match wins). -/
def lookupMapping (m : List (String × String)) (k : String) : Option String :=
  match m.find? (fun p => p.1 = k) with
  | some p => some p.2
  | none => none

/-- The outcome of applyTaskModelMapping on info:
whether info.IsModelMapped was set and the recorded upstream name. -/
structure MappingResult where
  isModelMapped : Bool
  upstreamModelName : Option String
deriving Repr, DecidableEq

/-- The loop epilogue of applyTaskModelMapping (relay_task.go:685-690):
record the final name as upstream when at least one hop was taken. -/
def finishMapping (isMapped : Bool) (current : String) :
    Option (Except String MappingResult) :=
  if isMapped then some (Except.ok { isModelMapped := true, upstreamModelName := some current })
  else some (Except.ok { isModelMapped := false, upstreamModelName := none })

/-- The chain-following loop of applyTaskModelMapping (relay_task.go:661-683),
written with explicit fuel: none means the iteration bound was exhausted
(proved impossible for fuel above the table size, see the termination
theorem). -/
def resolveChain (fuel : Nat) (m : List (String × String)) (origin current : String)
    (visited : List String) (isMapped : Bool) : Option (Except String MappingResult) :=
  match fuel with
  | 0 => none
  | fuel + 1 =>
    match lookupMapping m current with
    | some mapped =>
      if mapped ≠ "" then
        if visited.contains mapped then
          if mapped = current then
            if current = origin then
              some (Except.ok { isModelMapped := false, upstreamModelName := none })
            else finishMapping true current
          else
            some (Except.error ("model mapping contains cycle: " ++ current ++ " -> " ++ mapped))
        else resolveChain fuel m origin mapped (mapped :: visited) true
      else finishMapping isMapped current
    | none => finishMapping isMapped current

/-- applyTaskModelMapping (relay_task.go:644-691): resolve the channel's
chained model redirect table from the origin model name.  The visited set
initially holds the origin; the fuel bound of table size plus one is shown
sufficient below.  An empty mapping table takes the no-hop path exactly as
the Go early return does. -/
def applyTaskModelMapping (m : List (String × String)) (origin : String) :
    Option (Except String MappingResult) :=
  resolveChain (m.length + 1) m origin origin [origin] false

/-- dto.TaskError as built by service.TaskErrorWrapper and
TaskErrorWrapperLocal (service/error.go:200-219). -/
structure TaskError where
  code : String
  message : String
  statusCode : Nat
  localError : Bool
deriving Repr, DecidableEq

/-- service.TaskErrorWrapper. -/
def taskErrorWrapper (message code : String) (statusCode : Nat) : TaskError :=
  { code := code, message := message, statusCode := statusCode, localError := false }

/-- service.TaskErrorWrapperLocal. -/
def taskErrorWrapperLocal (message code : String) (statusCode : Nat) : TaskError :=
  { taskErrorWrapper message code statusCode with localError := true }

/-- The submission-time inputs of RelayTaskSubmit that the engine consumes:
request identity and grouping, the channel mapping table, the adaptor-derived
billing hints (info.PriceData.OtherRatios and the xAI context keys), and the
outcomes of the adaptor calls (validation and the upstream round trip), which
are external to the engine. -/
structure SubmitArgs where
  userId : Nat
  channelId : Nat
  tokenId : Int
  tokenKey : String
  tokenName : String
  action : String
  originModelName : String
  fallbackModelName : String
  modelMapping : List (String × String)
  usingGroup : String
  userGroup : String
  otherRatios : List (String × ℚ)
  xaiInputImageCount : Int
  xaiInputImagePrice : ℚ
  xaiInputVideoSeconds : ℚ
  xaiInputVideoPrice : ℚ
  validateOutcome : Option TaskError
  upstreamOutcome : Except TaskError (String × String)

/-- The pre-charge computation of RelayTaskSubmit (relay_task.go:148-219):
model price with default fallbacks, the effective group ratio, the
multiplicative other ratios (skipped for bill-per-call patch models), the
currency conversion, and the additive xAI input-image and input-video
surcharges. -/
def preChargeQuota (cfg : RatioConfig) (args : SubmitArgs) : Int :=
  let modelName := if args.originModelName ≠ "" then args.originModelName
    else args.fallbackModelName
  let modelPrice :=
    match cfg.modelPrice modelName with
    | some p => p
    | none =>
      match cfg.defaultModelPrice modelName with
      | some p => p
      | none => (1 : ℚ) / 10
  let groupRatio := cfg.groupRatio args.usingGroup
  let ugr := cfg.groupGroupRatio args.userGroup args.usingGroup
  let ratio :=
    match ugr with
    | some r => modelPrice * r
    | none => modelPrice * groupRatio
  let ratio :=
    if ¬(cfg.taskPricePatches.contains modelName) then
      args.otherRatios.foldl (fun acc p => if p.2 ≠ 1 then acc * p.2 else acc) ratio
    else ratio
  let quota := goInt (ratio * cfg.quotaPerUnit)
  let effectiveGroupRatio :=
    match ugr with
    | some r => r
    | none => groupRatio
  let quota :=
    if args.xaiInputImageCount > 0 ∧ args.xaiInputImagePrice > 0 then
      quota + goInt (args.xaiInputImagePrice * (args.xaiInputImageCount : ℚ) *
        effectiveGroupRatio * cfg.quotaPerUnit)
    else quota
  let quota :=
    if args.xaiInputVideoSeconds > 0 ∧ args.xaiInputVideoPrice > 0 then
      quota + goInt (args.xaiInputVideoPrice * args.xaiInputVideoSeconds *
        effectiveGroupRatio * cfg.quotaPerUnit)
    else quota
  quota

/-- Modelled from the spec: service.PostConsumeQuota is repository code that
is not under src/ (relay_task.go:249 calls it).  Per spec section 4.3, the
reservation debit is the act of recording the consumption: the user balance
is reduced by the reserved amount, and the token balance mirrors it. -/
def World.postConsumeQuota (w : World) (uid : Nat) (tid : Int) (q : Int) : World :=
  let w := w.decreaseUserQuota uid q
  if tid > 0 then w.decreaseTokenQuota tid q else w

/-- RelayTaskSubmit (relay_task.go:29-327) from the model-mapping step on:
resolve the mapping, validate through the adaptor, price and check the
balance, perform the upstream round trip, then persist the task and debit
the reservation (the deferred consume-log block, run once DoResponse
succeeded).  The origin-task/remix preamble only feeds the inputs collected
in SubmitArgs.  Every error path returns the World untouched, as the Go
code returns before any ledger or store mutation. -/
def relayTaskSubmit (cfg : RatioConfig) (args : SubmitArgs) (w : World) :
    Except TaskError Task × World :=
  match applyTaskModelMapping args.modelMapping args.originModelName with
  | none =>
    (Except.error (taskErrorWrapperLocal ("model mapping fuel exhausted")
      ("model_mapping_failed") 400), w)
  | some (Except.error e) =>
    (Except.error (taskErrorWrapperLocal e ("model_mapping_failed") 400), w)
  | some (Except.ok mres) =>
    match args.validateOutcome with
    | some e => (Except.error e, w)
    | none =>
      let quota := preChargeQuota cfg args
      let userQuota := w.userQuota args.userId
      if userQuota - quota < 0 then
        (Except.error (taskErrorWrapperLocal ("user quota is not enough")
          ("quota_not_enough") 403), w)
      else
        match args.upstreamOutcome with
        | Except.error e => (Except.error e, w)
        | Except.ok td =>
          let modelName := if args.originModelName ≠ "" then args.originModelName
            else args.fallbackModelName
          let w := w.postConsumeQuota args.userId args.tokenId quota
          let w :=
            if quota ≠ 0 ∧ args.action ≠ TaskActionEdit then
              let w := w.recordConsumeLog
                { userId := args.userId, channelId := args.channelId
                  modelName := modelName, tokenName := args.tokenName
                  quota := quota, moderation := false }
              let w := w.updateUserUsedQuota args.userId quota
              w.updateChannelUsedQuota args.channelId quota
            else w
          let task : Task :=
            { taskID := td.1, userId := args.userId, channelId := args.channelId
              action := args.action, status := TaskStatusSubmitted, progress := ""
              submitTime := 0, startTime := 0, finishTime := 0, quota := quota
              group := args.usingGroup, failReason := ""
              originModelName := args.originModelName
              upstreamModelName := mres.upstreamModelName
              privateData :=
                if args.action = TaskActionEdit then
                  { tokenId := args.tokenId, tokenKey := args.tokenKey
                    tokenName := args.tokenName }
                else { tokenId := 0, tokenKey := "", tokenName := "" } }
          (Except.ok task, w)

/-- Projection: the quota of the task row a reconciler run persisted, or
none when the run returned an error without persisting. -/
def okTaskQuota (r : Except String Task × World) : Option Int :=
  match r.1 with
  | Except.ok t => some t.quota
  | Except.error _ => none

/-- Projection: the status of the task row a reconciler run persisted. -/
def okTaskStatus (r : Except String Task × World) : Option String :=
  match r.1 with
  | Except.ok t => some t.status
  | Except.error _ => none

/-- The settled-quota formula exactly as the specification states it
(section 8, duration settlement bound): max(1, floor(Q × min(d, C) / C)). -/
def videoEditSettledFormula (q : Int) (d : ℚ) : Int :=
  max 1 ⌊(q : ℚ) * min d maxDuration / maxDuration⌋

theorem ratFloor_eq (x : ℚ) : ratFloor x = ⌊x⌋ := by
  rw [Rat.floor_def, ratFloor]

theorem goInt_of_nonneg {x : ℚ} (h : 0 ≤ x) : goInt x = ⌊x⌋ := by
  rw [goInt, if_pos h, ratFloor_eq]

theorem maxDuration_pos : (0 : ℚ) < maxDuration := by
  rw [maxDuration]; norm_num

/-- The code's settled quota agrees with the specification's formula for a
positive reserved quota and a positive reported duration. -/
theorem xaiEditActualQuota_eq (q : Int) (d : ℚ) (hq : 0 < q) (hd : 0 < d) :
    xaiEditActualQuota q d = videoEditSettledFormula q d := by
  have hC := maxDuration_pos
  have hfull : max 1 ⌊(q : ℚ) * maxDuration / maxDuration⌋ = q := by
    rw [mul_div_assoc, div_self (ne_of_gt hC), mul_one, Int.floor_intCast]
    exact max_eq_right hq
  unfold xaiEditActualQuota videoEditSettledFormula
  by_cases hcap : d > maxDuration
  · rw [if_pos hcap, if_neg (lt_irrefl maxDuration), min_eq_right (le_of_lt hcap), hfull]
  · rw [if_neg hcap]
    have hdC : d ≤ maxDuration := not_lt.mp hcap
    rw [min_eq_left hdC]
    by_cases hlt : d < maxDuration
    · rw [if_pos hlt]
      have hx : (0 : ℚ) ≤ (q : ℚ) * d / maxDuration :=
        div_nonneg (mul_nonneg (by exact_mod_cast hq.le) hd.le) hC.le
      rw [goInt_of_nonneg hx]
      have ht : 0 ≤ ⌊(q : ℚ) * d / maxDuration⌋ := Int.floor_nonneg.mpr hx
      by_cases hz : ⌊(q : ℚ) * d / maxDuration⌋ ≤ 0
      · rw [if_pos hz, le_antisymm hz ht]
        simp
      · rw [if_neg hz]
        exact (max_eq_right (not_le.mp hz)).symm
    · have hdm : d = maxDuration := le_antisymm hdC (not_lt.mp hlt)
      rw [if_neg hlt, hdm, hfull]

/-- The settled quota never exceeds the reserved quota, so the credited
difference is never negative. -/
theorem xaiEditActualQuota_le (q : Int) (d : ℚ) (hq : 0 < q) (hd : 0 < d) :
    xaiEditActualQuota q d ≤ q := by
  rw [xaiEditActualQuota_eq q d hq hd, videoEditSettledFormula]
  have hC := maxDuration_pos
  have h1 : (q : ℚ) * min d maxDuration / maxDuration ≤ (q : ℚ) := by
    rw [div_le_iff₀ hC]
    exact mul_le_mul_of_nonneg_left (min_le_right d maxDuration) (by exact_mod_cast hq.le)
  have h2 : ⌊(q : ℚ) * min d maxDuration / maxDuration⌋ ≤ q := by
    calc ⌊(q : ℚ) * min d maxDuration / maxDuration⌋ ≤ ⌊(q : ℚ)⌋ := Int.floor_le_floor h1
      _ = q := Int.floor_intCast q
  exact max_le hq h2

theorem editSuccessSettlement_quota (task : Task) (d : ℚ) (w : World) :
    (editSuccessSettlement task d w).1.quota = xaiEditActualQuota task.quota d := rfl

theorem editSuccessSettlement_status (task : Task) (d : ℚ) (w : World) :
    (editSuccessSettlement task d w).1.status = task.status := rfl

theorem editSuccessSettlement_action (task : Task) (d : ℚ) (w : World) :
    (editSuccessSettlement task d w).1.action = task.action := rfl

theorem editSuccessSettlement_userQuota (task : Task) (d : ℚ) (w : World)
    (hq : 0 < task.quota) (hd : 0 < d) :
    (editSuccessSettlement task d w).2.userQuota task.userId
      = w.userQuota task.userId + (task.quota - xaiEditActualQuota task.quota d) := by
  have hle := xaiEditActualQuota_le task.quota d hq hd
  unfold editSuccessSettlement
  by_cases hr : task.quota - xaiEditActualQuota task.quota d > 0
  · by_cases ht : task.privateData.tokenId > 0 ∧ task.privateData.tokenKey ≠ ""
    · simp [hr, ht, World.recordConsumeLog, World.updateUserUsedQuota,
        World.updateChannelUsedQuota, World.increaseUserQuota, World.increaseTokenQuota]
    · simp [hr, ht, World.recordConsumeLog, World.updateUserUsedQuota,
        World.updateChannelUsedQuota, World.increaseUserQuota]
  · simp only [World.recordConsumeLog, World.updateUserUsedQuota,
      World.updateChannelUsedQuota, if_neg hr]
    omega

theorem finishMapping_isSome (b : Bool) (s : String) :
    (finishMapping b s).isSome = true := by
  cases b <;> simp [finishMapping]

theorem lookupMapping_mem {m : List (String × String)} {k v : String}
    (h : lookupMapping m k = some v) : v ∈ m.map Prod.snd := by
  unfold lookupMapping at h
  cases hf : m.find? (fun p => p.1 = k) with
  | none => rw [hf] at h; exact absurd h (by simp)
  | some p =>
    rw [hf] at h
    have hmem : p ∈ m := List.mem_of_find?_eq_some hf
    injection h with h2
    exact h2 ▸ List.mem_map.mpr ⟨p, hmem, rfl⟩

/-- Fuel sufficiency for the mapping loop: as long as the remaining fuel
exceeds the number of mapping-table values not yet visited, the loop
finishes without exhausting the fuel. -/
theorem resolveChain_isSome (m : List (String × String)) (origin : String) :
    ∀ (fuel : Nat) (current : String) (visited : List String) (isMapped : Bool),
      ((m.map Prod.snd).toFinset \ visited.toFinset).card < fuel →
      (resolveChain fuel m origin current visited isMapped).isSome = true := by
  intro fuel
  induction fuel with
  | zero => intro current visited isMapped h; omega
  | succ n ih =>
    intro current visited isMapped h
    rw [resolveChain]
    cases hl : lookupMapping m current with
    | none => exact finishMapping_isSome _ _
    | some mapped =>
      dsimp only
      by_cases hm : mapped = ""
      · simp only [hm, ne_eq, not_true_eq_false, if_false]
        exact finishMapping_isSome _ _
      · rw [if_pos hm]
        by_cases hv : visited.contains mapped = true
        · rw [if_pos hv]
          by_cases h1 : mapped = current
          · rw [if_pos h1]
            by_cases h2 : current = origin
            · rw [if_pos h2]; rfl
            · rw [if_neg h2]; exact finishMapping_isSome _ _
          · rw [if_neg h1]; rfl
        · rw [if_neg hv]
          apply ih
          have hvmem : mapped ∈ (m.map Prod.snd).toFinset :=
            List.mem_toFinset.mpr (lookupMapping_mem hl)
          have hnotv : mapped ∉ visited.toFinset := by
            simp only [List.mem_toFinset]
            simpa using hv
          have hmemdiff : mapped ∈ (m.map Prod.snd).toFinset \ visited.toFinset :=
            Finset.mem_sdiff.mpr ⟨hvmem, hnotv⟩
          have hstep : (m.map Prod.snd).toFinset \ (mapped :: visited).toFinset
              = ((m.map Prod.snd).toFinset \ visited.toFinset).erase mapped := by
            rw [List.toFinset_cons, Finset.sdiff_insert]
          rw [hstep, Finset.card_erase_of_mem hmemdiff]
          have hpos : 0 < ((m.map Prod.snd).toFinset \ visited.toFinset).card :=
            Finset.card_pos.mpr ⟨mapped, hmemdiff⟩
          omega

/-- C10: model mapping resolution terminates for every finite mapping table
and origin model name; the loop runs within the fuel bound of table size
plus one, because every non-final iteration adds a previously-unvisited
table value to the visited set. -/
theorem applyTaskModelMapping_terminates (m : List (String × String)) (origin : String) :
    (applyTaskModelMapping m origin).isSome = true := by
  unfold applyTaskModelMapping
  apply resolveChain_isSome
  have h1 : ((m.map Prod.snd).toFinset \ [origin].toFinset).card
      ≤ (m.map Prod.snd).toFinset.card :=
    Finset.card_le_card (Finset.sdiff_subset)
  have h2 : (m.map Prod.snd).toFinset.card ≤ (m.map Prod.snd).length :=
    List.toFinset_card_le _
  have h3 : (m.map Prod.snd).length = m.length := List.length_map _ _
  omega

/-- A neutral ratio configuration for the concrete scenarios: no configured
model ratios or prices (so the pre-charge falls back to the 0.1 default), unit
group ratio, no per-user override, the standard conversion of 500000 quota
per currency unit. -/
def demoCfg : RatioConfig :=
  { modelRatio := fun _ => (0, false)
    modelPrice := fun _ => none
    defaultModelPrice := fun _ => none
    groupRatio := fun _ => 1
    groupGroupRatio := fun _ _ => none
    userGroup := fun _ => ""
    taskPricePatches := []
    quotaPerUnit := 500000
    resolveModelName := fun _ _ => "demo-model" }

/-- A ledger holding a balance of 500 for every user and no logs. -/
def demoWorld : World :=
  { userQuota := fun _ => 500, tokenQuota := fun _ => 0
    userUsedQuota := fun _ => 0, channelUsedQuota := fun _ => 0
    consumeLogs := [], sysLogs := [] }

/-- An in-progress generate task of user 7 with a persisted pre-charge of 100. -/
def demoTask : Task :=
  { taskID := "task-1", userId := 7, channelId := 3, action := TaskActionGenerate
    status := TaskStatusInProgress, progress := "30%", submitTime := 0
    startTime := 0, finishTime := 0, quota := 100, group := "default"
    failReason := "", originModelName := "demo-model", upstreamModelName := none
    privateData := { tokenId := 0, tokenKey := "", tokenName := "" } }

/-- The same task as an edit action. -/
def demoEditTask : Task := { demoTask with action := TaskActionEdit }

/-- A failed poll result with a non-moderation reason. -/
def demoFailInfo : TaskInfo :=
  { emptyTaskInfo with status := TaskStatusFailure, reason := "boom" }

/-- A submission request of user 7 priced at 0.1 × 5 seconds × 500000 = 250000. -/
def demoSubmitArgs : SubmitArgs :=
  { userId := 7, channelId := 3, tokenId := 0, tokenKey := "", tokenName := ""
    action := TaskActionGenerate, originModelName := "demo-model"
    fallbackModelName := "", modelMapping := []
    usingGroup := "default", userGroup := "default"
    otherRatios := [(("seconds"), (5 : ℚ))]
    xaiInputImageCount := 0, xaiInputImagePrice := 0
    xaiInputVideoSeconds := 0, xaiInputVideoPrice := 0
    validateOutcome := none
    upstreamOutcome := Except.ok (("task-1"), ("")) }

/-- C7: for the mapping table with A mapped to B and B mapped to A, resolving
from origin A fails with a cycle error, and the submission carrying that
mapping is rejected with a 400 model-mapping error before any charge: the
returned world is the untouched input world and no task is created. -/
theorem cycleMappingRejectsSubmission :
    applyTaskModelMapping [(("A"), ("B")), (("B"), ("A"))] ("A")
      = some (Except.error ("model mapping contains cycle: B -> A"))
    ∧ relayTaskSubmit demoCfg
        { demoSubmitArgs with
          modelMapping := [(("A"), ("B")), (("B"), ("A"))], originModelName := "A" }
        demoWorld
      = (Except.error (taskErrorWrapperLocal ("model mapping contains cycle: B -> A")
          ("model_mapping_failed") 400), demoWorld) :=
  ⟨rfl, rfl⟩

/-- C8 counterexample: for the table A→B, B→C, C→A the lookup chain returns
to the origin A, yet resolution does not succeed as an identity: it fails
with a cycle error, contradicting the claim that any chain returning to the
origin is treated as no mapping. -/
theorem chainReturningToOriginFails :
    applyTaskModelMapping [(("A"), ("B")), (("B"), ("C")), (("C"), ("A"))] ("A")
      = some (Except.error ("model mapping contains cycle: C -> A")) :=
  rfl

/-- C8 amended: only a direct self-mapping of the origin (the origin name
looked up in the table yields the origin itself) is treated as no mapping —
resolution succeeds, the model stays unmapped, and the submission behaves
exactly as with no mapping table at all. -/
theorem selfMappingNoOp :
    (∀ (m : List (String × String)) (origin : String),
        lookupMapping m origin = some origin →
        applyTaskModelMapping m origin
          = some (Except.ok { isModelMapped := false, upstreamModelName := none }))
    ∧ (∀ (cfg : RatioConfig) (args : SubmitArgs) (w : World),
        lookupMapping args.modelMapping args.originModelName = some args.originModelName →
        relayTaskSubmit cfg args w = relayTaskSubmit cfg { args with modelMapping := [] } w) := by
  have part1 : ∀ (m : List (String × String)) (origin : String),
      lookupMapping m origin = some origin →
      applyTaskModelMapping m origin
        = some (Except.ok { isModelMapped := false, upstreamModelName := none }) := by
    intro m origin h
    unfold applyTaskModelMapping
    rw [resolveChain]
    rw [h]
    dsimp only
    by_cases horig : origin = ""
    · simp [horig, finishMapping]
    · rw [if_pos horig, if_pos (by simp : ([origin].contains origin) = true),
        if_pos rfl, if_pos rfl]
  refine ⟨part1, ?_⟩
  intro cfg args w h
  have h1 := part1 _ _ h
  have h2 : applyTaskModelMapping ([] : List (String × String)) args.originModelName
      = some (Except.ok { isModelMapped := false, upstreamModelName := none }) := rfl
  unfold relayTaskSubmit
  rw [h1, h2]
  rfl

/-- The arguments of the concrete self-mapping scenario (table A→A, origin A). -/
def selfMapArgs : SubmitArgs :=
  { demoSubmitArgs with modelMapping := [(("A"), ("A"))], originModelName := "A" }

/-- C8 witness: the amended no-op holds at the concrete self-mapping A→A. -/
theorem selfMappingNoOp_witness :
    applyTaskModelMapping [(("A"), ("A"))] ("A")
      = some (Except.ok { isModelMapped := false, upstreamModelName := none })
    ∧ relayTaskSubmit demoCfg selfMapArgs demoWorld
      = relayTaskSubmit demoCfg { selfMapArgs with modelMapping := [] } demoWorld :=
  ⟨selfMappingNoOp.1 [(("A"), ("A"))] ("A") rfl,
   selfMappingNoOp.2 demoCfg selfMapArgs demoWorld rfl⟩

/-- C9: a submission whose pre-charge exceeds the user's balance is rejected
with the insufficient-quota error (HTTP 403) and the untouched input world —
no task row exists and no ledger entry is written; conversely any submission
that does create a task had a balance at least the pre-charge. -/
theorem reserveRejectsNegativeBalance :
    (∀ (cfg : RatioConfig) (args : SubmitArgs) (w : World) (mres : MappingResult),
        applyTaskModelMapping args.modelMapping args.originModelName
          = some (Except.ok mres) →
        args.validateOutcome = none →
        w.userQuota args.userId - preChargeQuota cfg args < 0 →
        relayTaskSubmit cfg args w
          = (Except.error (taskErrorWrapperLocal ("user quota is not enough")
              ("quota_not_enough") 403), w))
    ∧ (∀ (cfg : RatioConfig) (args : SubmitArgs) (w : World) (t : Task) (w2 : World),
        relayTaskSubmit cfg args w = (Except.ok t, w2) →
        0 ≤ w.userQuota args.userId - preChargeQuota cfg args) := by
  constructor
  · intro cfg args w mres hmap hval hneg
    unfold relayTaskSubmit
    rw [hmap, hval]
    dsimp only
    rw [if_pos hneg]
  · intro cfg args w t w2 hok
    unfold relayTaskSubmit at hok
    cases hmap : applyTaskModelMapping args.modelMapping args.originModelName with
    | none => rw [hmap] at hok; simp at hok
    | some r =>
      rw [hmap] at hok
      cases r with
      | error e => simp at hok
      | ok mres =>
        dsimp only at hok
        cases hval : args.validateOutcome with
        | some e => rw [hval] at hok; simp at hok
        | none =>
          rw [hval] at hok
          dsimp only at hok
          by_cases hneg : w.userQuota args.userId - preChargeQuota cfg args < 0
          · rw [if_pos hneg] at hok; simp at hok
          · omega

/-- C9 witness: the concrete submission (pre-charge 250000 against balance
500) is rejected with the 403 insufficient-quota error. -/
theorem reserveRejectsNegativeBalance_witness :
    relayTaskSubmit demoCfg demoSubmitArgs demoWorld
      = (Except.error (taskErrorWrapperLocal ("user quota is not enough")
          ("quota_not_enough") 403), demoWorld) :=
  reserveRejectsNegativeBalance.1 demoCfg demoSubmitArgs demoWorld
    { isModelMapped := false, upstreamModelName := none } rfl rfl (by decide)

theorem updateVideo_success_edit (now : Int) (cfg : RatioConfig) (snap : Task)
    (tr : TaskInfo) (w : World)
    (hs1 : snap.status ≠ TaskStatusSuccess)
    (hst : tr.status = TaskStatusSuccess) (ha : snap.action = TaskActionEdit)
    (htok : ¬tr.totalTokens > 0) (hq : 0 < snap.quota) (hd : 0 < tr.duration) :
    okTaskQuota (updateVideoSingleTask now cfg snap tr w)
        = some (xaiEditActualQuota snap.quota tr.duration)
    ∧ (updateVideoSingleTask now cfg snap tr w).2.userQuota snap.userId
        = w.userQuota snap.userId
          + (snap.quota - xaiEditActualQuota snap.quota tr.duration) := by
  have hne : tr.status ≠ "" := by rw [hst]; decide
  have hnorm : normalizeTaskResult tr = tr := by
    rw [normalizeTaskResult, if_neg hne]
  have h1 : ¬tr.status = TaskStatusSubmitted := by rw [hst]; decide
  have h2 : ¬tr.status = TaskStatusQueued := by rw [hst]; decide
  have h3 : ¬tr.status = TaskStatusInProgress := by rw [hst]; decide
  simp only [updateVideoSingleTask, hnorm, if_neg h1, if_neg h2, if_neg h3,
    if_pos hst]
  simp only [successCase, if_neg htok]
  rw [if_pos (And.intro hs1 (And.intro ha (And.intro hd hq)))]
  simp only [finishUpdate, Bool.false_eq_true, if_false, okTaskQuota]
  constructor
  · rw [editSuccessSettlement_quota]
  · exact editSuccessSettlement_userQuota _ tr.duration w hq hd

theorem videoFetchPoll_success_edit (snap : Task) (ti : TaskInfo) (w : World)
    (hs1 : snap.status ≠ TaskStatusSuccess)
    (hst : ti.status = TaskStatusSuccess) (ha : snap.action = TaskActionEdit)
    (hq : 0 < snap.quota) (hd : 0 < ti.duration) :
    (videoFetchPoll snap ti w).1.quota = xaiEditActualQuota snap.quota ti.duration
    ∧ (videoFetchPoll snap ti w).2.userQuota snap.userId
        = w.userQuota snap.userId
          + (snap.quota - xaiEditActualQuota snap.quota ti.duration) := by
  have hne : ti.status ≠ "" := by rw [hst]; decide
  have hchanged : snap.status ≠ ti.status := by rw [hst]; exact hs1
  simp only [videoFetchPoll, if_pos hne]
  rw [if_pos (And.intro hchanged (And.intro hst (And.intro ha (And.intro hd hq))))]
  have hnofail : ¬(snap.status ≠ ti.status
      ∧ ti.status = TaskStatusFailure
      ∧ snap.action = TaskActionEdit
      ∧ xaiEditActualQuota snap.quota ti.duration > 0) := by
    intro hcon
    have hf : ti.status = TaskStatusFailure := hcon.2.1
    rw [hst] at hf
    exact absurd hf (by decide)
  simp only [editSuccessSettlement_status, editSuccessSettlement_action,
    editSuccessSettlement_quota]
  rw [if_neg hnofail]
  constructor
  · exact editSuccessSettlement_quota _ ti.duration w
  · exact editSuccessSettlement_userQuota _ ti.duration w hq hd

/-- C2: an edit-action task on a non-terminal snapshot polled as Success with
reserved quota Q above zero, reported duration d above zero and no token
count on the poll (duration-billed polls carry none) settles, on both the
sweep and the on-demand fetch path, to exactly max(1, floor(Q × min(d, C) / C))
for the cap C = 8.7 seconds, and exactly Q minus the settled quota is
credited back to the user's balance. -/
theorem durationSettlementBound (now : Int) (cfg : RatioConfig) (snap : Task)
    (tr : TaskInfo) (w : World)
    (hs1 : snap.status ≠ TaskStatusSuccess) (_hs2 : snap.status ≠ TaskStatusFailure)
    (hst : tr.status = TaskStatusSuccess) (ha : snap.action = TaskActionEdit)
    (htok : tr.totalTokens ≤ 0) (hq : 0 < snap.quota) (hd : 0 < tr.duration) :
    okTaskQuota (updateVideoSingleTask now cfg snap tr w)
        = some (videoEditSettledFormula snap.quota tr.duration)
    ∧ (updateVideoSingleTask now cfg snap tr w).2.userQuota snap.userId
        = w.userQuota snap.userId
          + (snap.quota - videoEditSettledFormula snap.quota tr.duration)
    ∧ (videoFetchPoll snap tr w).1.quota = videoEditSettledFormula snap.quota tr.duration
    ∧ (videoFetchPoll snap tr w).2.userQuota snap.userId
        = w.userQuota snap.userId
          + (snap.quota - videoEditSettledFormula snap.quota tr.duration) := by
  have hform := xaiEditActualQuota_eq snap.quota tr.duration hq hd
  have hsweep := updateVideo_success_edit now cfg snap tr w hs1 hst ha (not_lt.mpr htok) hq hd
  have hfetch := videoFetchPoll_success_edit snap tr w hs1 hst ha hq hd
  rw [← hform]
  exact ⟨hsweep.1, hsweep.2, hfetch.1, hfetch.2⟩

/-- A successful poll result reporting a 4-second video. -/
def demoSuccessInfo : TaskInfo :=
  { emptyTaskInfo with status := TaskStatusSuccess, url := "http://video", duration := 4 }

/-- C2 witness: the in-progress edit task with reserved quota 100 polled as
done after 4 of 8.7 seconds settles per the formula on both paths. -/
theorem durationSettlementBound_witness :
    okTaskQuota (updateVideoSingleTask 0 demoCfg demoEditTask demoSuccessInfo demoWorld)
        = some (videoEditSettledFormula 100 4)
    ∧ (updateVideoSingleTask 0 demoCfg demoEditTask demoSuccessInfo demoWorld).2.userQuota 7
        = demoWorld.userQuota 7 + (100 - videoEditSettledFormula 100 4)
    ∧ (videoFetchPoll demoEditTask demoSuccessInfo demoWorld).1.quota
        = videoEditSettledFormula 100 4
    ∧ (videoFetchPoll demoEditTask demoSuccessInfo demoWorld).2.userQuota 7
        = demoWorld.userQuota 7 + (100 - videoEditSettledFormula 100 4) :=
  durationSettlementBound 0 demoCfg demoEditTask demoSuccessInfo demoWorld
    (by decide) (by decide) rfl rfl (by decide) (by decide) (by decide)

/-- C5: a volc fetch response without error but with a missing status field
normalises to the Unknown transient status; an empty upstream status is
replaced by the Unknown sentinel before the status switch; and the sweep
reconciler, fed a poll result whose status is empty or Unknown, returns an
error with the world untouched — no refund, no charge, nothing persisted,
so Unknown is never persisted as a terminal state. -/
theorem unknownStatusIsTransient :
    (∀ fr : VolcFetchResponse, fr.errorCode = "" → fr.status = "" →
        (volcParseTaskResult fr).status = TaskStatusUnknown)
    ∧ (∀ tr : TaskInfo, tr.status = "" →
        (normalizeTaskResult tr).status = TaskStatusUnknown)
    ∧ (∀ (now : Int) (cfg : RatioConfig) (snap : Task) (tr : TaskInfo) (w : World),
        tr.status = "" ∨ tr.status = TaskStatusUnknown →
        ∃ e, updateVideoSingleTask now cfg snap tr w = (Except.error e, w)) := by
  refine ⟨?_, ?_, ?_⟩
  · intro fr he hsz
    rw [volcParseTaskResult, if_neg (by simp [he]), if_pos hsz]
  · intro tr h
    rw [normalizeTaskResult, if_pos h]
    rfl
  · intro now cfg snap tr w h
    have hnorm : (normalizeTaskResult tr).status = TaskStatusUnknown := by
      cases h with
      | inl h0 => rw [normalizeTaskResult, if_pos h0]; rfl
      | inr h0 => rw [normalizeTaskResult, if_neg (by rw [h0]; decide)]; exact h0
    refine ⟨"unknown task status " ++ TaskStatusUnknown ++ " for task " ++ snap.taskID, ?_⟩
    simp only [updateVideoSingleTask, hnorm,
      if_neg (show ¬TaskStatusUnknown = TaskStatusSubmitted by decide),
      if_neg (show ¬TaskStatusUnknown = TaskStatusQueued by decide),
      if_neg (show ¬TaskStatusUnknown = TaskStatusInProgress by decide),
      if_neg (show ¬TaskStatusUnknown = TaskStatusSuccess by decide),
      if_neg (show ¬TaskStatusUnknown = TaskStatusFailure by decide)]

/-- A volc fetch response with neither error nor status field. -/
def demoVolcEmpty : VolcFetchResponse :=
  { id := "v1", modelName := "", status := "", videoUrl := ""
    completionTokens := 0, totalTokens := 0, errorCode := "", errorMessage := "" }

/-- C5 witness: the concrete empty-status poll is normalised to Unknown and
the sweep run on it errors out leaving the ledger untouched. -/
theorem unknownStatusIsTransient_witness :
    (volcParseTaskResult demoVolcEmpty).status = TaskStatusUnknown
    ∧ (normalizeTaskResult emptyTaskInfo).status = TaskStatusUnknown
    ∧ ∃ e, updateVideoSingleTask 0 demoCfg demoTask emptyTaskInfo demoWorld
        = (Except.error e, demoWorld) :=
  ⟨unknownStatusIsTransient.1 demoVolcEmpty rfl rfl,
   unknownStatusIsTransient.2.1 emptyTaskInfo rfl,
   unknownStatusIsTransient.2.2 0 demoCfg demoTask emptyTaskInfo demoWorld (Or.inl rfl)⟩

/-- The zero-delta informational moderation entry of task_video.go:409-427,
for a given task snapshot. -/
def moderationZeroEntry (snap : Task) : ConsumeLog :=
  { userId := snap.userId, channelId := snap.channelId
    modelName := snap.originModelName, tokenName := snap.privateData.tokenName
    quota := 0, moderation := true }

/-- C6: in the sweep reconciler, a non-edit task on a non-terminal snapshot
failing with a moderation-matching reason keeps its full charge: the
persisted quota is unchanged, the persisted status is Failure, neither the
user nor the token balance moves, no refund log is written, and exactly one
zero-delta consumption log entry flagged as moderation is appended. -/
theorem moderationNonEditKeepsCharge (now : Int) (cfg : RatioConfig) (snap : Task)
    (tr : TaskInfo) (w : World)
    (_hs1 : snap.status ≠ TaskStatusSuccess) (hs2 : snap.status ≠ TaskStatusFailure)
    (hst : tr.status = TaskStatusFailure) (hmod : isModerationReason tr.reason = true)
    (ha : ¬snap.action = TaskActionEdit) (hq : snap.quota ≠ 0) :
    okTaskQuota (updateVideoSingleTask now cfg snap tr w) = some snap.quota
    ∧ okTaskStatus (updateVideoSingleTask now cfg snap tr w) = some TaskStatusFailure
    ∧ (updateVideoSingleTask now cfg snap tr w).2.userQuota = w.userQuota
    ∧ (updateVideoSingleTask now cfg snap tr w).2.tokenQuota = w.tokenQuota
    ∧ (updateVideoSingleTask now cfg snap tr w).2.sysLogs = w.sysLogs
    ∧ (updateVideoSingleTask now cfg snap tr w).2.consumeLogs
        = w.consumeLogs ++ [moderationZeroEntry snap] := by
  have hne : tr.status ≠ "" := by rw [hst]; decide
  have hnorm : normalizeTaskResult tr = tr := by rw [normalizeTaskResult, if_neg hne]
  have h1 : ¬tr.status = TaskStatusSubmitted := by rw [hst]; decide
  have h2 : ¬tr.status = TaskStatusQueued := by rw [hst]; decide
  have h3 : ¬tr.status = TaskStatusInProgress := by rw [hst]; decide
  have h4 : ¬tr.status = TaskStatusSuccess := by rw [hst]; decide
  simp only [updateVideoSingleTask, hnorm, if_neg h1, if_neg h2, if_neg h3,
    if_neg h4, if_pos hst]
  simp only [failureCase]
  rw [if_pos (And.intro hmod (And.intro hq hs2))]
  rw [if_neg ha]
  exact ⟨rfl, rfl, rfl, rfl, rfl, rfl⟩

/-- A failed poll result whose reason matches the moderation policy. -/
def demoModerationInfo : TaskInfo :=
  { emptyTaskInfo with
    status := TaskStatusFailure
    reason := "Content Moderation rejected the prompt" }

/-- C6 witness: the concrete in-progress generate task with charge 100
failing for moderation keeps quota 100 and logs one zero-delta entry. -/
theorem moderationNonEditKeepsCharge_witness :
    okTaskQuota (updateVideoSingleTask 0 demoCfg demoTask demoModerationInfo demoWorld)
      = some demoTask.quota
    ∧ okTaskStatus (updateVideoSingleTask 0 demoCfg demoTask demoModerationInfo demoWorld)
      = some TaskStatusFailure
    ∧ (updateVideoSingleTask 0 demoCfg demoTask demoModerationInfo demoWorld).2.userQuota
      = demoWorld.userQuota
    ∧ (updateVideoSingleTask 0 demoCfg demoTask demoModerationInfo demoWorld).2.tokenQuota
      = demoWorld.tokenQuota
    ∧ (updateVideoSingleTask 0 demoCfg demoTask demoModerationInfo demoWorld).2.sysLogs
      = demoWorld.sysLogs
    ∧ (updateVideoSingleTask 0 demoCfg demoTask demoModerationInfo demoWorld).2.consumeLogs
      = demoWorld.consumeLogs ++ [moderationZeroEntry demoTask] :=
  moderationNonEditKeepsCharge 0 demoCfg demoTask demoModerationInfo demoWorld
    (by decide) (by decide) rfl (by decide) (by decide) (by decide)

/-- The central race of spec section 5 run on a shared stale snapshot: the
scheduled sweep and the on-demand fetch both read the same persisted row
(snap), then both process the same poll result and write, the fetch path
second.  Sequential composition on the shared snapshot models the
interleaving in which both racers read before either writes. -/
def raceSweepThenFetch (now : Int) (cfg : RatioConfig) (snap : Task)
    (tr : TaskInfo) (w : World) : World :=
  let w1 := (updateVideoSingleTask now cfg snap tr w).2
  (videoFetchPoll snap tr w1).2

/-- The task row the sweep persists for the failed edit-task scenario. -/
def demoPersistedFailure : Task :=
  match (updateVideoSingleTask 0 demoCfg demoEditTask demoFailInfo demoWorld).1 with
  | Except.ok t => t
  | Except.error _ => demoEditTask

/-- C1 (code bug): billing is not applied at most once per terminal
transition under the central race.  On the shared non-terminal read of the
failed edit task with charge 100 and balance 500, a single sweep refunds to
600, but when the on-demand fetch raced on the same stale snapshot it
refunds again, leaving 700 — two billing effects for one transition.  A
later poll of the persisted terminal row changes nothing (the sequential
re-run guard works), so only the concurrent stale-read path double-bills. -/
theorem concurrentRefundAppliedTwice :
    (updateVideoSingleTask 0 demoCfg demoEditTask demoFailInfo demoWorld).2.userQuota 7 = 600
    ∧ (raceSweepThenFetch 0 demoCfg demoEditTask demoFailInfo demoWorld).userQuota 7 = 700
    ∧ (updateVideoSingleTask 0 demoCfg demoPersistedFailure demoFailInfo
        (raceSweepThenFetch 0 demoCfg demoEditTask demoFailInfo demoWorld)).2.userQuota 7
      = 700 := by
  refine ⟨by decide, by decide, by decide⟩

/-- The failed task row the on-demand fetch path persists for the non-edit
scenario, with its charge still in place. -/
def demoFetchPersisted : Task := (videoFetchPoll demoTask demoFailInfo demoWorld).1

/-- C3 (code bug): a non-edit task failing without moderation is refunded in
full by the sweep (quota 0, balance 500 to 600), but the on-demand fetch
path persists the same Failure transition with the charge kept (quota 100),
no balance change and no log; the sweep then never refunds the persisted
row because its status is already Failure — the refund is lost. -/
theorem fetchPathSkipsNonEditRefund :
    okTaskQuota (updateVideoSingleTask 0 demoCfg demoTask demoFailInfo demoWorld) = some 0
    ∧ (updateVideoSingleTask 0 demoCfg demoTask demoFailInfo demoWorld).2.userQuota 7 = 600
    ∧ (videoFetchPoll demoTask demoFailInfo demoWorld).1.status = TaskStatusFailure
    ∧ (videoFetchPoll demoTask demoFailInfo demoWorld).1.quota = 100
    ∧ (videoFetchPoll demoTask demoFailInfo demoWorld).2.userQuota 7 = 500
    ∧ (videoFetchPoll demoTask demoFailInfo demoWorld).2.consumeLogs = []
    ∧ (videoFetchPoll demoTask demoFailInfo demoWorld).2.sysLogs = []
    ∧ (updateVideoSingleTask 0 demoCfg demoFetchPersisted demoFailInfo
        (videoFetchPoll demoTask demoFailInfo demoWorld).2).2.userQuota 7 = 500 := by
  refine ⟨by decide, by decide, by decide, by decide, by decide, by decide,
    by decide, by decide⟩

/-- The concrete terminal snapshot (a successful task). -/
def demoSuccessTask : Task := { demoTask with status := TaskStatusSuccess }

/-- A poll result reporting the in-progress state. -/
def demoInProgressInfo : TaskInfo :=
  { emptyTaskInfo with status := TaskStatusInProgress }

/-- A poll result reporting the queued state. -/
def demoQueuedInfo : TaskInfo := { emptyTaskInfo with status := TaskStatusQueued }

/-- A poll result reporting the submitted state. -/
def demoSubmittedInfo : TaskInfo :=
  { emptyTaskInfo with status := TaskStatusSubmitted }

/-- C4 (code bug): both reconciliation paths copy the polled status into the
row unguarded, so a poll moves the persisted status backward: the sweep
moves a terminal Success row back to InProgress and an InProgress row back
to Submitted, and the fetch path moves a Success row back to Queued. -/
theorem pollMovesStatusBackward :
    okTaskStatus (updateVideoSingleTask 0 demoCfg demoSuccessTask demoInProgressInfo demoWorld)
      = some TaskStatusInProgress
    ∧ (videoFetchPoll demoSuccessTask demoQueuedInfo demoWorld).1.status = TaskStatusQueued
    ∧ okTaskStatus (updateVideoSingleTask 0 demoCfg demoTask demoSubmittedInfo demoWorld)
      = some TaskStatusSubmitted := by
  refine ⟨by decide, by decide, by decide⟩

end NewApi
